import Mathlib

/-!
Shallow embedding of `src/Main.py` (AnmolSharma29/Water-Quality-Checker).

The program builds a monthly water-quality series with
`pd.date_range(start='2000-01-01', end='2025-11-03', freq='M')`, draws
normally-distributed noise from a seeded RNG, clips the raw physical
values, derives four sub-scores and a composite quality score, filters by
a year range chosen on a slider, and classifies the latest reading.

Numeric values are modelled as rationals.  The seeded RNG and `np.sin`
are abstracted into an environment `Env`: `noise` is the stream of
standard-normal draws in the exact order the program consumes them
(`np.random.normal(0, s, n)` consumes the next `n` draws, scaled by `s`),
and `sn` gives the value of `np.sin` at each rational argument.  Every
property proved below holds for all environments, hence for the actual
seeded run.
-/

set_option maxRecDepth 100000

namespace WaterQuality

/-- A calendar date (pandas timestamps restricted to year-month-day). -/
structure Date where
  year : Nat
  month : Nat
  day : Nat
  deriving DecidableEq, Repr

/-- Gregorian leap-year rule, as used by pandas timestamps. -/
def isLeapYear (y : Nat) : Bool :=
  y % 4 == 0 && (y % 100 != 0 || y % 400 == 0)

/-- Number of days of month `m` in year `y`. -/
def daysInMonth (y m : Nat) : Nat :=
  if m == 2 then (if isLeapYear y then 29 else 28)
  else if m == 4 || m == 6 || m == 9 || m == 11 then 30
  else 31

/-- Lexicographic order on dates. -/
def dateLE (a b : Date) : Bool :=
  a.year < b.year ||
    (a.year == b.year && (a.month < b.month ||
      (a.month == b.month && a.day ≤ b.day)))

/-- The `k`-th month-end date counting from January 2000 (the month of the
start bound); `freq='M'` stamps each month at its last calendar day. -/
def monthEnd (k : Nat) : Date :=
  let y := 2000 + k / 12
  let m := k % 12 + 1
  ⟨y, m, daysInMonth y m⟩

/-- Source `pd.date_range(start='2000-01-01', end='2025-11-03', freq='M')`: the
month-end dates lying inside the closed interval from the start bound to
the end bound.  The candidate pool covers every month of the years 2000
through 2025, the span of the two bounds. -/
def dates : List Date :=
  ((List.range ((2025 - 2000 + 1) * 12)).map monthEnd).filter
    (fun d => dateLE ⟨2000, 1, 1⟩ d && dateLE d ⟨2025, 11, 3⟩)

/-- Source `n = len(dates)`. -/
def n : Nat := dates.length

/-- The abstracted randomness and trigonometry of the generator: `noise k`
is the `k`-th standard-normal draw of the seeded RNG (seed 42) in
consumption order, and `sn x` is `np.sin x`. -/
structure Env where
  noise : Nat → ℚ
  sn : ℚ → ℚ

/-- Source `np.clip(x, lo, hi)`. -/
def clip (x lo hi : ℚ) : ℚ := min (max x lo) hi

/-- Source `ph = 7.5 + np.random.normal(0, 0.3, n) + 0.2 * np.sin(np.arange(n) * 0.1)`;
sample `i` uses draw `i` (the pH block is drawn first). -/
def ph (e : Env) (i : Nat) : ℚ :=
  7.5 + 0.3 * e.noise i + 0.2 * e.sn ((i : ℚ) * 0.1)

/-- Source `tds = np.clip(250 + np.random.normal(0, 50, n) + 30 * np.sin(np.arange(n) * 0.15), 150, 600)`;
sample `i` uses draw `n + i` (the TDS block is drawn second). -/
def tds (e : Env) (i : Nat) : ℚ :=
  clip (250 + 50 * e.noise (n + i) + 30 * e.sn ((i : ℚ) * 0.15)) 150 600

/-- Source `turbidity = np.clip(2 + np.random.normal(0, 1, n) + 1.5 * np.sin(np.arange(n) * 0.2), 0.5, 8)`;
sample `i` uses draw `2*n + i` (the turbidity block is drawn third). -/
def turbidity (e : Env) (i : Nat) : ℚ :=
  clip (2 + 1 * e.noise (2 * n + i) + 1.5 * e.sn ((i : ℚ) * 0.2)) 0.5 8

/-- Source `do = np.clip(7 + np.random.normal(0, 0.8, n) - 0.5 * np.sin(np.arange(n) * 0.12), 4, 9)`;
sample `i` uses draw `3*n + i` (the dissolved-oxygen block is drawn last). -/
def dissolvedOxygen (e : Env) (i : Nat) : ℚ :=
  clip (7 + 0.8 * e.noise (3 * n + i) - 0.5 * e.sn ((i : ℚ) * 0.12)) 4 9

/-- Source `ph_score = 100 - abs(7.5 - ph) * 20` (no clip). -/
def ph_score (e : Env) (i : Nat) : ℚ := 100 - |7.5 - ph e i| * 20

/-- Source `tds_score = np.clip(100 - (tds - 200) / 5, 0, 100)`. -/
def tds_score (e : Env) (i : Nat) : ℚ :=
  clip (100 - (tds e i - 200) / 5) 0 100

/-- Source `turbidity_score = np.clip(100 - turbidity * 15, 0, 100)`. -/
def turbidity_score (e : Env) (i : Nat) : ℚ :=
  clip (100 - turbidity e i * 15) 0 100

/-- Source `do_score = np.clip(do * 12, 0, 100)`. -/
def do_score (e : Env) (i : Nat) : ℚ :=
  clip (dissolvedOxygen e i * 12) 0 100

/-- Source `quality_score = (ph_score + tds_score + turbidity_score + do_score) / 4`. -/
def quality_score (e : Env) (i : Nat) : ℚ :=
  (ph_score e i + tds_score e i + turbidity_score e i + do_score e i) / 4

/-- One row of the generated DataFrame. -/
structure Sample where
  date : Date
  ph : ℚ
  tds : ℚ
  turbidity : ℚ
  dissolvedOxygen : ℚ
  qualityScore : ℚ
  deriving DecidableEq, Repr

/-- Row `i` of the DataFrame. -/
def mkSample (e : Env) (i : Nat) : Sample :=
  ⟨dates.getD i ⟨0, 0, 0⟩, ph e i, tds e i, turbidity e i,
    dissolvedOxygen e i, quality_score e i⟩

/-- Source `generate_water_quality_data()`: the full series, one sample per date. -/
def generate_water_quality_data (e : Env) : List Sample :=
  (List.range n).map (mkSample e)

/-- Source `mask = (df['Date'].dt.year >= year_range[0]) & (df['Date'].dt.year <= year_range[1]);
filtered_df = df[mask]`. -/
def filterByYear (lo hi : Nat) (l : List Sample) : List Sample :=
  l.filter (fun s => decide (lo ≤ s.date.year) && decide (s.date.year ≤ hi))

/-- The filtered DataFrame for a given year range. -/
def filtered_df (e : Env) (lo hi : Nat) : List Sample :=
  filterByYear lo hi (generate_water_quality_data e)

/-- Modelled from the spec: the year-range slider widget
(`st.sidebar.slider(..., min_value=2000, max_value=2025, ...)`) is not part
of the repository; per the spec, out-of-domain requests for either bound
are clamped into `[min_value, max_value]` at the boundary. -/
def sliderClamp (lo hi : Nat) (v : Nat × Nat) : Nat × Nat :=
  (min (max v.1 lo) hi, min (max v.2 lo) hi)

/-- Source `year_range`: the slider output for a requested pair of bounds. -/
def year_range (v : Nat × Nat) : Nat × Nat := sliderClamp 2000 2025 v

/-- The filter as the program applies it: directly to the slider output,
with no further validation between the slider and the mask. -/
def pipeline (e : Env) (v : Nat × Nat) : List Sample :=
  filtered_df e (year_range v).1 (year_range v).2

/-- Outcome of the latest-reading access `latest = filtered_df.iloc[-1]`.
`indexOutOfBounds` models Python raising `IndexError` when the frame is
empty.  `emptySelectionError` is modelled from the spec: the documented
`EmptySelectionError`, which nothing in the source produces. -/
inductive AccessOutcome where
  | ok (s : Sample)
  | indexOutOfBounds
  | emptySelectionError
  deriving DecidableEq, Repr

/-- Source `latest = filtered_df.iloc[-1]`: last row if any, else the `IndexError`
of a negative out-of-bounds position on an empty frame. -/
def latest (l : List Sample) : AccessOutcome :=
  match l.getLast? with
  | some s => .ok s
  | none => .indexOutOfBounds

/-- Source `delta="Optimal" if 6.5 <= latest['pH'] <= 8.5 else "Outside Range"`. -/
def phDelta (x : ℚ) : String :=
  if 6.5 ≤ x ∧ x ≤ 8.5 then "Optimal" else "Outside Range"

/-- Source `status = "Excellent" if quality > 80 else "Good" if quality > 60 else "Fair"`. -/
def qualityStatus (q : ℚ) : String :=
  if q > 80 then "Excellent" else if q > 60 then "Good" else "Fair"

/-- All-zero environment (zero noise, zero sine), used as a concrete
instantiation. -/
def zeroEnv : Env := ⟨fun _ => 0, fun _ => 0⟩

/-- Environment whose every normal draw is 100, used to exhibit extreme
samples. -/
def bigEnv : Env := ⟨fun _ => 100, fun _ => 0⟩

/-! ### Shared helper lemmas -/

theorem n_eq : n = 310 := by decide

theorem clip_le (x lo hi : ℚ) : clip x lo hi ≤ hi := min_le_right _ _

theorem le_clip (x lo hi : ℚ) (h : lo ≤ hi) : lo ≤ clip x lo hi :=
  le_min (le_trans (le_max_right x lo) (le_refl _)) h

theorem length_generate (e : Env) :
    (generate_water_quality_data e).length = n := by
  simp [generate_water_quality_data]

theorem mem_generate {e : Env} {s : Sample} :
    s ∈ generate_water_quality_data e ↔ ∃ i, i < n ∧ s = mkSample e i := by
  simp only [generate_water_quality_data, List.mem_map, List.mem_range]
  constructor
  · rintro ⟨i, hi, rfl⟩; exact ⟨i, hi, rfl⟩
  · rintro ⟨i, hi, rfl⟩; exact ⟨i, hi, rfl⟩

theorem date_year_bounds : ∀ d ∈ dates, 2000 ≤ d.year ∧ d.year ≤ 2025 := by
  decide

theorem getD_dates_mem {i : Nat} (h : i < n) : dates.getD i ⟨0, 0, 0⟩ ∈ dates := by
  have h' : i < dates.length := h
  rw [List.getD_eq_getElem?_getD, List.getElem?_eq_getElem h']
  exact List.getElem_mem h'

/-! ### C1: length of the generated series -/

/-- C1 counterexample: the claim says the series produced by
`generate_water_quality_data` has length 311; it does not (its length is
310 for every environment, in particular the zero one). -/
theorem generated_length_ne_311 :
    ¬ (generate_water_quality_data zeroEnv).length = 311 := by decide

/-- C1 (amended): the generated series has exactly one sample per
month-end date between 2000-01-31 and 2025-10-31 inclusive — its first
date is 2000-01-31, its last is 2025-10-31 — and its length is 310,
not 311. -/
theorem generated_length_310 (e : Env) :
    (generate_water_quality_data e).length = 310 ∧
      dates.head? = some ⟨2000, 1, 31⟩ ∧
      dates.getLast? = some ⟨2025, 10, 31⟩ := by
  refine ⟨?_, by decide, by decide⟩
  rw [length_generate, n_eq]

/-! ### C2: latest reading on an empty selection -/

/-- C2 counterexample: for the out-of-domain selection (1990, 1995) the
filtered frame is empty, and the latest-reading access
`filtered_df.iloc[-1]` is an out-of-bounds access (`IndexError`) — it is
not the documented `EmptySelectionError`; no such error exists in the
code. -/
theorem latest_empty_not_emptySelectionError :
    filtered_df zeroEnv 1990 1995 = [] ∧
      latest (filtered_df zeroEnv 1990 1995) = AccessOutcome.indexOutOfBounds ∧
      latest (filtered_df zeroEnv 1990 1995) ≠ AccessOutcome.emptySelectionError := by
  decide

/-- C2 (amended): whenever a year-range selection filters to zero samples,
the latest-reading access performs the out-of-bounds access on the empty
sequence (Python `IndexError` from `iloc[-1]`); the code never raises an
`EmptySelectionError` and has no user-visible "no data" state. -/
theorem latest_of_empty_selection (e : Env) (lo hi : Nat)
    (h : filtered_df e lo hi = []) :
    latest (filtered_df e lo hi) = AccessOutcome.indexOutOfBounds := by
  rw [h]; rfl

/-- Witness for `latest_of_empty_selection` at the concrete empty
selection (1990, 1995). -/
theorem latest_of_empty_selection_witness :
    latest (filtered_df zeroEnv 1990 1995) = AccessOutcome.indexOutOfBounds :=
  latest_of_empty_selection zeroEnv 1990 1995 (by decide)

/-! ### C3: the year filter -/

theorem filter_le_eq_takeWhile {α : Type} (f : α → Nat) (hi : Nat)
    (l : List α) (h : l.Pairwise (fun a b => f a ≤ f b)) :
    l.filter (fun a => decide (f a ≤ hi)) =
      l.takeWhile (fun a => decide (f a ≤ hi)) := by
  induction l with
  | nil => rfl
  | cons a t ih =>
    rw [List.pairwise_cons] at h
    by_cases hd : f a ≤ hi
    · simp [List.filter_cons, List.takeWhile_cons, hd, ih h.2]
    · simp [List.filter_cons, List.takeWhile_cons, hd, List.filter_eq_nil_iff]
      intro b hb
      have hab := h.1 b hb
      omega

theorem filter_interval_contiguous {α : Type} (f : α → Nat) (lo hi : Nat)
    (l : List α) (h : l.Pairwise (fun a b => f a ≤ f b)) :
    List.IsInfix (l.filter (fun a => decide (lo ≤ f a) && decide (f a ≤ hi))) l := by
  induction l with
  | nil => exact ⟨[], [], rfl⟩
  | cons a t ih =>
    rw [List.pairwise_cons] at h
    by_cases hd : lo ≤ f a ∧ f a ≤ hi
    · have hfc : (a :: t).filter (fun b => decide (lo ≤ f b) && decide (f b ≤ hi)) =
          a :: t.filter (fun b => decide (lo ≤ f b) && decide (f b ≤ hi)) := by
        simp [List.filter_cons, hd.1, hd.2]
      have hcongr : t.filter (fun b => decide (lo ≤ f b) && decide (f b ≤ hi)) =
          t.filter (fun b => decide (f b ≤ hi)) := by
        apply List.filter_congr
        intro b hb
        have hlo : lo ≤ f b := le_trans hd.1 (h.1 b hb)
        simp [hlo]
      obtain ⟨r, hr⟩ := List.takeWhile_prefix (l := t) (fun b => decide (f b ≤ hi))
      refine ⟨[], r, ?_⟩
      rw [hfc, hcongr, filter_le_eq_takeWhile f hi t h.2]
      simpa using congrArg (a :: ·) hr
    · have hfa : (decide (lo ≤ f a) && decide (f a ≤ hi)) = false := by
        by_cases h1 : lo ≤ f a
        · have h2 : ¬ f a ≤ hi := fun h2 => hd ⟨h1, h2⟩
          simp [h1, h2]
        · simp [h1]
      have hfc : (a :: t).filter (fun b => decide (lo ≤ f b) && decide (f b ≤ hi)) =
          t.filter (fun b => decide (lo ≤ f b) && decide (f b ≤ hi)) := by
        simp [List.filter_cons, hfa]
      rw [hfc]
      exact List.infix_cons (ih h.2)

theorem dates_year_pairwise :
    dates.Pairwise (fun a b => a.year ≤ b.year) := by decide

theorem generate_year_pairwise (e : Env) :
    (generate_water_quality_data e).Pairwise
      (fun s₁ s₂ => s₁.date.year ≤ s₂.date.year) := by
  rw [generate_water_quality_data, List.pairwise_map]
  rw [List.pairwise_iff_getElem]
  intro i j hi hj hij
  simp only [List.length_range] at hi hj
  have hi' : i < dates.length := hi
  have hj' : j < dates.length := hj
  simp only [List.getElem_range]
  show (dates.getD i ⟨0, 0, 0⟩).year ≤ (dates.getD j ⟨0, 0, 0⟩).year
  have hgi : dates.getD i ⟨0, 0, 0⟩ = dates[i] := by
    rw [List.getD_eq_getElem?_getD, List.getElem?_eq_getElem hi']
    rfl
  have hgj : dates.getD j ⟨0, 0, 0⟩ = dates[j] := by
    rw [List.getD_eq_getElem?_getD, List.getElem?_eq_getElem hj']
    rfl
  rw [hgi, hgj]
  exact List.pairwise_iff_getElem.mp dates_year_pairwise i j hi' hj' hij

/-- C3: for every inclusive (start_year, end_year) pair the filter keeps
exactly the samples whose year lies in the range, preserving order as a
contiguous (infix) sub-sequence of the series; with (2000, 2025) it
returns the full series, and with (2010, 2010) exactly the samples dated
in 2010. -/
theorem filter_year_range_spec (e : Env) (lo hi : Nat) :
    (∀ s, s ∈ filtered_df e lo hi ↔
        s ∈ generate_water_quality_data e ∧ lo ≤ s.date.year ∧ s.date.year ≤ hi) ∧
    List.IsInfix (filtered_df e lo hi) (generate_water_quality_data e) ∧
    filtered_df e 2000 2025 = generate_water_quality_data e ∧
    filtered_df e 2010 2010 =
      (generate_water_quality_data e).filter (fun s => decide (s.date.year = 2010)) := by
  refine ⟨?_, ?_, ?_, ?_⟩
  · intro s
    simp [filtered_df, filterByYear, List.mem_filter, and_assoc]
  · exact filter_interval_contiguous (fun s : Sample => s.date.year) lo hi
      (generate_water_quality_data e) (generate_year_pairwise e)
  · rw [filtered_df, filterByYear, List.filter_eq_self]
    intro s hs
    rcases mem_generate.mp hs with ⟨i, hi', rfl⟩
    have hd := date_year_bounds _ (getD_dates_mem hi')
    simp only [Bool.and_eq_true, decide_eq_true_eq]
    exact hd
  · rw [filtered_df, filterByYear]
    apply List.filter_congr
    intro s _
    by_cases h : s.date.year = 2010
    · simp [h]
    · simp [h]
      omega

/-- Witness for `filter_year_range_spec` at a concrete environment and
range: filtering with (2000, 2025) returns the full series. -/
theorem filter_year_range_spec_witness :
    filtered_df zeroEnv 2000 2025 = generate_water_quality_data zeroEnv :=
  (filter_year_range_spec zeroEnv 2000 2025).2.2.1

/-! ### C4: ranges of the raw physical values -/

/-- C4: after generation, every sample's raw physical values lie inside
their clamp ranges — `150 ≤ tds ≤ 600`, `0.5 ≤ turbidity ≤ 8`,
`4 ≤ do ≤ 9` — while pH is not clamped: for every bound there is a noise
stream pushing some sample's pH beyond it. -/
theorem raw_value_ranges :
    (∀ (e : Env), ∀ s ∈ generate_water_quality_data e,
      150 ≤ s.tds ∧ s.tds ≤ 600 ∧
      (0.5 : ℚ) ≤ s.turbidity ∧ s.turbidity ≤ 8 ∧
      4 ≤ s.dissolvedOxygen ∧ s.dissolvedOxygen ≤ 9) ∧
    (∀ B : ℚ, ∃ (e : Env), ∃ s ∈ generate_water_quality_data e, B < s.ph) := by
  constructor
  · intro e s hs
    rcases mem_generate.mp hs with ⟨i, hi', rfl⟩
    show 150 ≤ tds e i ∧ tds e i ≤ 600 ∧
      (0.5 : ℚ) ≤ turbidity e i ∧ turbidity e i ≤ 8 ∧
      4 ≤ dissolvedOxygen e i ∧ dissolvedOxygen e i ≤ 9
    refine ⟨le_clip _ _ _ (by norm_num), clip_le _ _ _,
      le_clip _ _ _ (by norm_num), clip_le _ _ _,
      le_clip _ _ _ (by norm_num), clip_le _ _ _⟩
  · intro B
    refine ⟨⟨fun _ => (B - 6.5) / 0.3, fun _ => 0⟩, mkSample ⟨fun _ => (B - 6.5) / 0.3, fun _ => 0⟩ 0, ?_, ?_⟩
    · exact mem_generate.mpr ⟨0, by rw [n_eq]; omega, rfl⟩
    · show B < ph ⟨fun _ => (B - 6.5) / 0.3, fun _ => 0⟩ 0
      simp only [ph]
      rw [mul_div_cancel₀ _ (by norm_num : (0.3 : ℚ) ≠ 0)]
      norm_num
      linarith

/-- Witness for `raw_value_ranges` at the concrete sample 0 of the zero
environment. -/
theorem raw_value_ranges_witness :
    150 ≤ (mkSample zeroEnv 0).tds ∧ (mkSample zeroEnv 0).tds ≤ 600 ∧
      (0.5 : ℚ) ≤ (mkSample zeroEnv 0).turbidity ∧ (mkSample zeroEnv 0).turbidity ≤ 8 ∧
      4 ≤ (mkSample zeroEnv 0).dissolvedOxygen ∧ (mkSample zeroEnv 0).dissolvedOxygen ≤ 9 :=
  raw_value_ranges.1 zeroEnv (mkSample zeroEnv 0) (mem_generate.mpr ⟨0, by rw [n_eq]; omega, rfl⟩)

/-! ### C5: ranges of the sub-scores -/

/-- C5: the TDS, turbidity and dissolved-oxygen sub-scores always lie in
[0, 100], and each is exactly the clipped form from the code; the pH
sub-score is the unclamped `100 - |7.5 - ph| * 20` and can go negative. -/
theorem sub_score_bounds :
    (∀ (e : Env) (i : Nat),
      0 ≤ tds_score e i ∧ tds_score e i ≤ 100 ∧
      0 ≤ turbidity_score e i ∧ turbidity_score e i ≤ 100 ∧
      0 ≤ do_score e i ∧ do_score e i ≤ 100 ∧
      ph_score e i = 100 - |7.5 - ph e i| * 20) ∧
    (∃ (e : Env) (i : Nat), ph_score e i < 0) := by
  constructor
  · intro e i
    exact ⟨le_clip _ _ _ (by norm_num), clip_le _ _ _,
      le_clip _ _ _ (by norm_num), clip_le _ _ _,
      le_clip _ _ _ (by norm_num), clip_le _ _ _, rfl⟩
  · refine ⟨bigEnv, 0, ?_⟩
    show ph_score bigEnv 0 < 0
    norm_num [ph_score, ph, bigEnv, abs]

/-! ### C6: the composite quality score -/

/-- C6: the quality score of every sample is the unweighted arithmetic
mean of the four sub-scores (their sum over their count), where the three
non-pH sub-scores are the [0,100]-clipped forms and the pH sub-score is
unclamped. -/
theorem quality_score_unweighted_mean (e : Env) (i : Nat) :
    quality_score e i =
      ([ph_score e i, tds_score e i, turbidity_score e i, do_score e i].sum) /
        (([ph_score e i, tds_score e i, turbidity_score e i, do_score e i].length : ℚ)) ∧
    tds_score e i = clip (100 - (tds e i - 200) / 5) 0 100 ∧
    turbidity_score e i = clip (100 - turbidity e i * 15) 0 100 ∧
    do_score e i = clip (dissolvedOxygen e i * 12) 0 100 ∧
    ph_score e i = 100 - |7.5 - ph e i| * 20 := by
  refine ⟨?_, rfl, rfl, rfl, rfl⟩
  simp [quality_score, List.sum]
  ring

/-! ### C7: classification boundaries -/

/-- C7: pH is labelled "Optimal" exactly on the closed interval
[6.5, 8.5] (so 8.5 is "Optimal" and 8.50001 is "Outside Range"), and the
quality label is "Excellent" exactly for score > 80 (so 80 is "Good"),
"Good" for 60 < score ≤ 80, and "Fair" otherwise. -/
theorem classification_boundaries :
    phDelta 8.5 = "Optimal" ∧
    phDelta 8.50001 = "Outside Range" ∧
    (∀ x : ℚ, phDelta x = "Optimal" ↔ 6.5 ≤ x ∧ x ≤ 8.5) ∧
    qualityStatus 80 = "Good" ∧
    qualityStatus 80.1 = "Excellent" ∧
    (∀ q : ℚ, qualityStatus q = "Excellent" ↔ 80 < q) ∧
    (∀ q : ℚ, qualityStatus q = "Good" ↔ 60 < q ∧ q ≤ 80) ∧
    (∀ q : ℚ, qualityStatus q = "Fair" ↔ q ≤ 60) := by
  have hne1 : ("Outside Range" : String) ≠ "Optimal" := by decide
  have hne2 : ("Good" : String) ≠ "Excellent" := by decide
  have hne3 : ("Fair" : String) ≠ "Excellent" := by decide
  have hne4 : ("Excellent" : String) ≠ "Good" := by decide
  have hne5 : ("Fair" : String) ≠ "Good" := by decide
  have hne6 : ("Excellent" : String) ≠ "Fair" := by decide
  have hne7 : ("Good" : String) ≠ "Fair" := by decide
  refine ⟨?_, ?_, ?_, ?_, ?_, ?_, ?_, ?_⟩
  · rw [phDelta, if_pos (by norm_num)]
  · rw [phDelta, if_neg (by norm_num)]
  · intro x
    by_cases h : 6.5 ≤ x ∧ x ≤ 8.5
    · rw [phDelta, if_pos h]
      simp [h]
    · rw [phDelta, if_neg h]
      simp [h, hne1]
  · rw [qualityStatus, if_neg (by norm_num), if_pos (by norm_num)]
  · rw [qualityStatus, if_pos (by norm_num)]
  · intro q
    by_cases h : 80 < q
    · rw [qualityStatus, if_pos h]
      simp [h]
    · rw [qualityStatus, if_neg h]
      by_cases h2 : 60 < q
      · rw [if_pos h2]
        simp [hne2, h]
      · rw [if_neg h2]
        simp [hne3, h]
  · intro q
    by_cases h : 80 < q
    · rw [qualityStatus, if_pos h]
      simp [hne4]
      intro h'
      linarith
    · rw [qualityStatus, if_neg h]
      by_cases h2 : 60 < q
      · rw [if_pos h2]
        simp [h2]
        linarith
      · rw [if_neg h2]
        simp [hne5]
        intro h'
        exact absurd h' h2
  · intro q
    by_cases h : 80 < q
    · rw [qualityStatus, if_pos h]
      simp [hne6]
      linarith
    · rw [qualityStatus, if_neg h]
      by_cases h2 : 60 < q
      · rw [if_pos h2]
        simp [hne7]
        linarith
      · rw [if_neg h2]
        simp
        linarith

/-- Witness for `classification_boundaries` at the concrete boundary
value 8.5. -/
theorem classification_boundaries_witness :
    phDelta 8.5 = "Optimal" :=
  classification_boundaries.1

/-! ### C8: determinism of the generator -/

/-- An environment equal to `zeroEnv` on every draw the generator
consumes (indices below `4 * n`) but different beyond them. -/
def tailEnv : Env := ⟨fun k => if k < 4 * n then 0 else 1, fun _ => 0⟩

/-- C8: the generator is a deterministic function of the seeded draw
stream: any two environments that agree on the `4 * n` consumed draws
(and on the sine table) generate identical series; and the draws are
consumed in the fixed order all-pH first (sample `i` uses draw `i`), then
all-TDS (draw `n + i`), then all-turbidity (draw `2n + i`), then
all-dissolved-oxygen (draw `3n + i`). -/
theorem generator_deterministic :
    (∀ (e₁ e₂ : Env),
      (∀ k, k < 4 * n → e₁.noise k = e₂.noise k) →
      e₁.sn = e₂.sn →
      generate_water_quality_data e₁ = generate_water_quality_data e₂) ∧
    (∀ (e : Env) (i : Nat),
      ph e i = 7.5 + 0.3 * e.noise i + 0.2 * e.sn ((i : ℚ) * 0.1) ∧
      tds e i = clip (250 + 50 * e.noise (n + i) + 30 * e.sn ((i : ℚ) * 0.15)) 150 600 ∧
      turbidity e i = clip (2 + 1 * e.noise (2 * n + i) + 1.5 * e.sn ((i : ℚ) * 0.2)) 0.5 8 ∧
      dissolvedOxygen e i =
        clip (7 + 0.8 * e.noise (3 * n + i) - 0.5 * e.sn ((i : ℚ) * 0.12)) 4 9) := by
  constructor
  · intro e₁ e₂ hn hs
    unfold generate_water_quality_data
    apply List.map_congr_left
    intro i hmem
    rw [List.mem_range] at hmem
    have h1 : e₁.noise i = e₂.noise i := hn i (by omega)
    have h2 : e₁.noise (n + i) = e₂.noise (n + i) := hn _ (by omega)
    have h3 : e₁.noise (2 * n + i) = e₂.noise (2 * n + i) := hn _ (by omega)
    have h4 : e₁.noise (3 * n + i) = e₂.noise (3 * n + i) := hn _ (by omega)
    have hph : ph e₁ i = ph e₂ i := by rw [ph, ph, h1, hs]
    have htds : tds e₁ i = tds e₂ i := by rw [tds, tds, h2, hs]
    have hturb : turbidity e₁ i = turbidity e₂ i := by
      rw [turbidity, turbidity, h3, hs]
    have hdo : dissolvedOxygen e₁ i = dissolvedOxygen e₂ i := by
      rw [dissolvedOxygen, dissolvedOxygen, h4, hs]
    simp only [mkSample, quality_score, ph_score, tds_score, turbidity_score,
      do_score, hph, htds, hturb, hdo]
  · intro e i
    exact ⟨rfl, rfl, rfl, rfl⟩

/-- Witness for `generator_deterministic`: two concretely different
environments that agree on the consumed draws generate the same series. -/
theorem generator_deterministic_witness :
    generate_water_quality_data zeroEnv = generate_water_quality_data tailEnv :=
  generator_deterministic.1 zeroEnv tailEnv
    (fun k hk => by simp only [zeroEnv, tailEnv]; rw [if_pos hk]) rfl

/-! ### C9: slider clamping of the year range -/

/-- C9: the slider clamps both bounds of every requested year range into
[2000, 2025] before the filter runs, leaves in-domain requests unchanged,
and the filter is applied directly to the clamped pair with no further
validation step in between. -/
theorem year_range_clamped :
    (∀ v : Nat × Nat,
      2000 ≤ (year_range v).1 ∧ (year_range v).1 ≤ 2025 ∧
      2000 ≤ (year_range v).2 ∧ (year_range v).2 ≤ 2025) ∧
    (∀ v : Nat × Nat, 2000 ≤ v.1 → v.1 ≤ 2025 → 2000 ≤ v.2 → v.2 ≤ 2025 →
      year_range v = v) ∧
    (∀ (e : Env) (v : Nat × Nat),
      pipeline e v =
        filterByYear (year_range v).1 (year_range v).2
          (generate_water_quality_data e)) := by
  refine ⟨?_, ?_, fun e v => rfl⟩
  · intro v
    simp only [year_range, sliderClamp]
    exact ⟨le_min (le_max_right _ _) (by norm_num), min_le_right _ _,
      le_min (le_max_right _ _) (by norm_num), min_le_right _ _⟩
  · intro v h1 h2 h3 h4
    simp only [year_range, sliderClamp]
    rw [max_eq_left h1, min_eq_left h2, max_eq_left h3, min_eq_left h4]

/-- Witness for `year_range_clamped`: the in-domain request (2005, 2010)
passes through the slider unchanged. -/
theorem year_range_clamped_witness :
    year_range (2005, 2010) = (2005, 2010) :=
  year_range_clamped.2.1 (2005, 2010) (by norm_num) (by norm_num)
    (by norm_num) (by norm_num)

/-! ### C10: upper bound of the quality score -/

/-- C10: every sample's quality score is at most 100 — the pH sub-score
never exceeds 100 and the other three are clipped to at most 100 — while
no lower bound of 0 holds: some environment produces a negative quality
score. -/
theorem quality_score_upper_bound :
    (∀ (e : Env) (i : Nat), quality_score e i ≤ 100 ∧ ph_score e i ≤ 100) ∧
    (∃ (e : Env) (i : Nat), quality_score e i < 0) := by
  constructor
  · intro e i
    have hph : ph_score e i ≤ 100 := by
      rw [ph_score]
      have h0 : 0 ≤ |7.5 - ph e i| * 20 := mul_nonneg (abs_nonneg _) (by norm_num)
      linarith
    have h1 : tds_score e i ≤ 100 := clip_le _ _ _
    have h2 : turbidity_score e i ≤ 100 := clip_le _ _ _
    have h3 : do_score e i ≤ 100 := clip_le _ _ _
    refine ⟨?_, hph⟩
    rw [quality_score]
    linarith
  · refine ⟨bigEnv, 0, ?_⟩
    show quality_score bigEnv 0 < 0
    norm_num [quality_score, ph_score, tds_score, turbidity_score, do_score,
      ph, tds, turbidity, dissolvedOxygen, clip, bigEnv, min_def, max_def, abs]

end WaterQuality
